import Mathlib

/-!
Shallow embedding of the Gunvald backend's content generation, moderation
and scheduling pipeline (src/server.js, src/ai.js and the server variant
carrying the organization_usage upsert), together with theorems settling
the specification claims.

Timestamps are modelled as integers (milliseconds); adding `i` days to a
timestamp adds `i * 86400000`.  Machine details that no claim depends on
(exact JS Unicode lowercasing tables, UTF-16 lengths) are modelled by the
corresponding Lean primitives.
-/

namespace Gunvald

/-- Post status enum: `draft`, `scheduled`, `published` (posts.status). -/
inductive Status where
  | draft
  | scheduled
  | published
deriving DecidableEq, Repr

/-- A row of the `posts` table: the fields the pipeline reads or writes. -/
structure Post where
  id : Nat
  organization_id : Nat
  text : String
  hashtags : List String
  scheduled_at : Option Int
  flagged : Bool
  status : Status
deriving DecidableEq, Repr

/-- One normalized item returned by `generatePlan` in src/ai.js
(`{text, hashtags, imagePrompt?}`). -/
structure GenItem where
  text : String
  hashtags : List String
  imagePrompt : Option String
deriving DecidableEq, Repr

/-- `bannedWords` from src/server.js line 296. -/
def bannedWords : List String := ["kielletty", "väkivalta", "rasismi"]

/-- Boolean substring test on character lists: JS `hay.includes(needle)`.
True iff `needle` occurs contiguously inside `hay`. -/
def containsSub (hay needle : List Char) : Bool :=
  (List.range (hay.length + 1)).any (fun i => needle.isPrefixOf (hay.drop i))

/-- JS `String.prototype.toLowerCase`, modelled character-wise. -/
def jsToLower (s : String) : String := ⟨s.data.map Char.toLower⟩

/-- The moderation check of src/server.js line 343:
`bannedWords.some((w) => text.toLowerCase().includes(w))`,
with the denylist as a parameter. -/
def isFlagged (banned : List String) (text : String) : Bool :=
  banned.any (fun w => containsSub (jsToLower text).data w.data)

/-- Milliseconds in a day; `date.setDate(date.getDate() + i)` adds `i` days. -/
def dayMs : Int := 86400000

/-- Adding `i` days to timestamp `t`. -/
def addDays (t : Int) (i : Nat) : Int := t + dayMs * i

/-- Post object built at loop index `i` of the `/api/generate` handler
(src/server.js lines 341-354): status `draft`, scheduled date = now + i days,
moderation flag computed from the generated text only.  `base` models the
id the store will assign. -/
def mkPost (base orgId : Nat) (now : Int) (i : Nat) (g : GenItem) : Post :=
  { id := base + i
    organization_id := orgId
    text := g.text
    hashtags := g.hashtags
    scheduled_at := some (addDays now i)
    flagged := isFlagged bannedWords g.text
    status := Status.draft }

/-- The `for (let i = 0; ...)` construction loop over the generated items,
carrying the running index `i`. -/
def buildPosts (base orgId : Nat) (now : Int) : Nat → List GenItem → List Post
  | _, [] => []
  | i, g :: gs => mkPost base orgId now i g :: buildPosts base orgId now (i + 1) gs

/-- `POST /api/generate` persistence step: builds the posts from the
generator output and appends them to the store; returns the response list
and the new store. -/
def generateAndPersist (store : List Post) (orgId : Nat) (now : Int)
    (generated : List GenItem) : List Post × List Post :=
  let posts := buildPosts store.length orgId now 0 generated
  (posts, store ++ posts)

/-- `POST /api/schedule` (src/server.js lines 454-469):
`UPDATE posts SET scheduled_at=$1, status='scheduled'
 WHERE id=$3 AND organization_id = (caller's organization)`.
Unconditional on the current status. -/
def schedule (callerOrg postId : Nat) (publishAt : Int)
    (store : List Post) : List Post :=
  store.map (fun p =>
    if p.id = postId ∧ p.organization_id = callerOrg then
      { p with scheduled_at := some publishAt, status := Status.scheduled }
    else p)

/-- SQL predicate `scheduled_at <= NOW()`: false when `scheduled_at` is NULL. -/
def schedDue (now : Int) (p : Post) : Bool :=
  match p.scheduled_at with
  | some t => decide (t ≤ now)
  | none => false

/-- WHERE clause of the scoped publish:
`status='scheduled' AND scheduled_at <= NOW() AND organization_id = callerOrg`. -/
def dueFor (now : Int) (org : Nat) (p : Post) : Bool :=
  decide (p.status = Status.scheduled) && decide (p.organization_id = org)
    && schedDue now p

/-- `POST /api/publish-scheduled` (src/server.js lines 471-485):
flips every due scheduled post of the caller's organization to `published`
and returns the number of rows updated (`result.rows.length`). -/
def publishDueScoped (now : Int) (org : Nat) (store : List Post) :
    List Post × Nat :=
  (store.map (fun p =>
      if dueFor now org p then { p with status := Status.published } else p),
   (store.filter (dueFor now org)).length)

/-- WHERE clause of the global sweep: `status='scheduled' AND scheduled_at <= NOW()`. -/
def dueAny (now : Int) (p : Post) : Bool :=
  decide (p.status = Status.scheduled) && schedDue now p

/-- `publishScheduledPosts` sweep (src/server.js lines 498-510): the
scope-unfiltered form of the same update. -/
def publishDueSweep (now : Int) (store : List Post) : List Post :=
  store.map (fun p =>
    if dueAny now p then { p with status := Status.published } else p)

/-- The due-post condition as the specification words it: status `scheduled`
and a non-null scheduled timestamp at or before `now`, owned by `org`. -/
def DuePost (now : Int) (org : Nat) (p : Post) : Prop :=
  p.status = Status.scheduled ∧ p.organization_id = org ∧
    ∃ t, p.scheduled_at = some t ∧ t ≤ now

/-! ### ContentGenerator (src/ai.js) -/

/-- JSON values, as produced by `JSON.parse`.  `undefined` arising from a
missing property is collapsed into `null` (the two are interchangeable for
every operation the generator performs on them). -/
inductive Json where
  | null
  | bool (b : Bool)
  | num (n : Int)
  | str (s : String)
  | arr (elems : List Json)
  | obj (fields : List (String × Json))

/-- JS truthiness of a JSON value. -/
def jsTruthy : Json → Bool
  | Json.null => false
  | Json.bool b => b
  | Json.num n => decide (n ≠ 0)
  | Json.str s => decide (s ≠ "")
  | Json.arr _ => true
  | Json.obj _ => true

/-- JS property read `p[k]`: object lookup (missing key gives `undefined`,
modelled `null`); on primitives it gives `undefined`.  The caller is
responsible for not reading a property of `null` (that throws). -/
def jsGet (p : Json) (k : String) : Json :=
  match p with
  | Json.obj fields =>
    (((fields.find? (fun f => decide (f.1 = k))).map Prod.snd).getD Json.null)
  | _ => Json.null

/-- Rendering of a JSON value kept in a string position.  Only the `str`
branch is ever exercised by the claims. -/
def jsToStr : Json → String
  | Json.str s => s
  | Json.num n => toString n
  | Json.bool b => if b then "true" else "false"
  | Json.null => "null"
  | Json.arr _ => ""
  | Json.obj _ => ""

/-- A JS runtime exception inside the normalization step. -/
inductive JsError where
  | typeError
deriving DecidableEq, Repr

/-- The normalization callback of src/ai.js lines 131-135:
`(p) => ({ text: p.text || '', hashtags: Array.isArray(p.hashtags) ?
p.hashtags : [], imagePrompt: p.imagePrompt || undefined })`.
Property access on a `null` element throws a TypeError. -/
def normalizeItem : Json → Except JsError GenItem
  | Json.null => Except.error JsError.typeError
  | p =>
    Except.ok
      { text := if jsTruthy (jsGet p "text") then jsToStr (jsGet p "text") else ""
        hashtags :=
          match jsGet p "hashtags" with
          | Json.arr xs => xs.map jsToStr
          | _ => []
        imagePrompt :=
          if jsTruthy (jsGet p "imagePrompt") then some (jsToStr (jsGet p "imagePrompt"))
          else none }

/-- Sequential run of the normalization callback over the array elements;
the first thrown TypeError propagates. -/
def normalizeList : List Json → Except JsError (List GenItem)
  | [] => Except.ok []
  | x :: xs =>
    match normalizeItem x, normalizeList xs with
    | Except.ok y, Except.ok ys => Except.ok (y :: ys)
    | Except.error e, _ => Except.error e
    | _, Except.error e => Except.error e

/-- `posts.map(normalize)`: calling `.map` on a non-array value throws a
TypeError; otherwise the callback runs over the elements. -/
def mapNormalize : Json → Except JsError (List GenItem)
  | Json.arr xs => normalizeList xs
  | _ => Except.error JsError.typeError

/-- Whitespace, as matched by the regex class and by `trim`. -/
def wsChar (c : Char) : Bool := c.isWhitespace

/-- JS `String.prototype.trim`, modelled character-wise. -/
def jsTrim (s : String) : String :=
  ⟨((s.data.dropWhile wsChar).reverse.dropWhile wsChar).reverse⟩

/-- JS `startsWith`. -/
def strStartsWith (s pre : String) : Bool := pre.data.isPrefixOf s.data

/-- JS `endsWith`. -/
def strEndsWith (s suf : String) : Bool := suf.data.isSuffixOf s.data

/-- Drop the first `n` characters. -/
def strDrop (s : String) (n : Nat) : String := ⟨s.data.drop n⟩

/-- Keep the first `n` characters. -/
def strTake (s : String) (n : Nat) : String := ⟨s.data.take n⟩

/-- Drop the last `n` characters. -/
def strDropRight (s : String) (n : Nat) : String :=
  ⟨s.data.take (s.data.length - n)⟩

/-- `raw.replace(/^```(?:json)?\s*/i, '')` on a string known to start with
a fence: drop the three backticks, then an optional case-insensitive
`json` label, then any run of whitespace. -/
def dropOpenFence (s : String) : String :=
  let t := strDrop s 3
  let t := if jsToLower (strTake t 4) = "json" then strDrop t 4 else t
  ⟨t.data.dropWhile wsChar⟩

/-- `.replace(/```$/i, '')`. -/
def dropCloseFence (s : String) : String :=
  if strEndsWith s "```" then strDropRight s 3 else s

/-- The fence stripping of src/ai.js lines 116-122: only applied when the
raw text starts with three backticks, followed by a final `trim`. -/
def stripFences (raw : String) : String :=
  if strStartsWith raw "```" then jsTrim (dropCloseFence (dropOpenFence raw))
  else raw

/-- `fetch`'s `res.ok`: HTTP status in the 2xx range. -/
def respOk (status : Nat) : Bool := decide (200 ≤ status) && decide (status < 300)

/-- Outcomes of `generatePlan` other than a normal return, i.e. the
exceptions it can throw. -/
inductive GenErr where
  | configurationError
  | upstreamError (status : Nat) (diag : String)
  | uncaughtTypeError
deriving DecidableEq, Repr

/-- The fallback of src/ai.js lines 126-129: on a `JSON.parse` failure,
`posts = [{ text: raw, hashtags: [] }]`. -/
def fallbackPosts (raw : String) : Json :=
  Json.arr [Json.obj [("text", Json.str raw), ("hashtags", Json.arr [])]]

/-- `generatePlan` (src/ai.js lines 41-136) from the point the upstream
call's outcome is fixed: `apiKey` is `OPENAI_API_KEY`, `status`/`errBody`
the upstream HTTP outcome, `content` the value of
`data.choices?.[0]?.message?.content`, and `parse` models `JSON.parse`
(`none` = `JSON.parse` throws).  An `Except.error` is an exception
escaping `generatePlan`. -/
def generatePlan (apiKey : Option String) (status : Nat) (errBody : String)
    (content : Option String) (parse : String → Option Json) :
    Except GenErr (List GenItem) :=
  match apiKey with
  | none => Except.error GenErr.configurationError
  | some _ =>
    if respOk status then
      let raw := stripFences ((content.map jsTrim).getD "")
      let posts :=
        match parse raw with
        | some j => j
        | none => fallbackPosts raw
      match mapNormalize posts with
      | Except.ok items => Except.ok items
      | Except.error _ => Except.error GenErr.uncaughtTypeError
    else Except.error (GenErr.upstreamError status errBody)

/-- A `JSON.parse` model agreeing with the real one on every input that is
not valid JSON: it throws. -/
def parseFailAll : String → Option Json := fun _ => none

/-- A `JSON.parse` model agreeing with the real one at the input `"42"`:
it returns the JSON number 42. -/
def parseAsNum42 : String → Option Json := fun _ => some (Json.num 42)

/-! ### Pipeline orchestration (`POST /api/generate`, src/server.js) -/

/-- The brand/voice profile row consumed by the generation prompt. -/
structure Profile where
  company_name : Option String := none
  description : Option String := none
  target_audience : Option String := none
  tone_of_voice : Option String := none
  marketing_goals : Option String := none
  content_themes : Option String := none
  social_channels : Option (List String) := none

/-- The error kinds a `POST /api/generate` call surfaces to its caller. -/
inductive PipelineError where
  | unauthenticated
  | organizationNotFound
  | profileNotFound
  | configurationError
  | upstreamError (status : Nat) (diag : String)
  | persistenceError
  | runtimeTypeError
deriving DecidableEq, Repr

/-- `POST /api/generate` (src/server.js lines 304-369) as observed by its
caller: the authentication outcome, the organization and profile lookups,
the `generatePlan` outcome and the persistence outcome determine which
error kind surfaces; success returns the response posts and the updated
store. -/
def handleGenerate (auth : Option Nat) (orgId : Option Nat)
    (profile : Option Profile) (apiKey : Option String) (status : Nat)
    (errBody : String) (content : Option String)
    (parse : String → Option Json) (persistOk : Bool) (store : List Post)
    (now : Int) : Except PipelineError (List Post × List Post) :=
  match auth with
  | none => Except.error PipelineError.unauthenticated
  | some _ =>
    match orgId with
    | none => Except.error PipelineError.organizationNotFound
    | some org =>
      match profile with
      | none => Except.error PipelineError.profileNotFound
      | some _ =>
        match generatePlan apiKey status errBody content parse with
        | Except.error GenErr.configurationError =>
          Except.error PipelineError.configurationError
        | Except.error (GenErr.upstreamError s d) =>
          Except.error (PipelineError.upstreamError s d)
        | Except.error GenErr.uncaughtTypeError =>
          Except.error PipelineError.runtimeTypeError
        | Except.ok items =>
          if persistOk then Except.ok (generateAndPersist store org now items)
          else Except.error PipelineError.persistenceError

/-! ### UsageMeter (organization_usage upsert, src/unnamed/part_001) -/

/-- A row of the `organization_usage` table. -/
structure UsageRecord where
  organization_id : Nat
  month : Int
  tokens_used : Nat
  images_generated : Nat
deriving DecidableEq, Repr

/-- `INSERT INTO organization_usage ... ON CONFLICT (organization_id, month)
DO UPDATE SET tokens_used = organization_usage.tokens_used + $3,
images_generated = organization_usage.images_generated + $4`: update the
conflicting row when one exists, else insert a fresh row. -/
def upsertUsage (org : Nat) (month : Int) (tok img : Nat) :
    List UsageRecord → List UsageRecord
  | [] => [⟨org, month, tok, img⟩]
  | r :: rs =>
    if r.organization_id = org ∧ r.month = month then
      { r with tokens_used := r.tokens_used + tok,
               images_generated := r.images_generated + img } :: rs
    else r :: upsertUsage org month tok img rs

/-- The `(organization_id, month)` row, when present. -/
def lookupUsage (org : Nat) (month : Int) (tbl : List UsageRecord) :
    Option UsageRecord :=
  tbl.find? (fun r => decide (r.organization_id = org) && decide (r.month = month))

/-- The tokens-used counter of the `(organization_id, month)` row (0 when
the row does not exist). -/
def usageTokens (org : Nat) (month : Int) (tbl : List UsageRecord) : Nat :=
  ((lookupUsage org month tbl).map UsageRecord.tokens_used).getD 0

/-- Placeholder text of post `i` in the part_001 generate stub:
`Postaus (i+1) yritykselle (companyName). Toimiala: (industry).
Kampanja: (campaign).` -/
def stubText (companyName industry campaign : String) (i : Nat) : String :=
  "Postaus " ++ toString (i + 1) ++ " yritykselle " ++ companyName ++
    ". Toimiala: " ++ industry ++ ". Kampanja: " ++ campaign ++ "."

/-- `tokensUsed = generatedPosts.reduce((sum, post) => sum + post.text.length, 0)`:
the total character length of the texts generated by one call. -/
def stubTokens (companyName industry campaign : String) (count : Nat) : Nat :=
  ((List.range count).map
    (fun i => (stubText companyName industry campaign i).length)).sum

/-- The usage-metering effect of one part_001 `/api/generate` call for the
given organization and month. -/
def generateCallUsage (org : Nat) (month : Int)
    (companyName industry campaign : String) (count : Nat)
    (tbl : List UsageRecord) : List UsageRecord :=
  upsertUsage org month (stubTokens companyName industry campaign count) 0 tbl

instance {ε α : Type} [DecidableEq ε] [DecidableEq α] :
    DecidableEq (Except ε α) := fun x y =>
  match x, y with
  | Except.ok a, Except.ok b => decidable_of_iff (a = b) (by simp)
  | Except.ok _, Except.error _ => isFalse (by simp)
  | Except.error _, Except.ok _ => isFalse (by simp)
  | Except.error e, Except.error f => decidable_of_iff (e = f) (by simp)

instance (now : Int) (org : Nat) (p : Post) : Decidable (DuePost now org p) :=
  haveI : Decidable (∃ t, p.scheduled_at = some t ∧ t ≤ now) :=
    match h : p.scheduled_at with
    | none => isFalse (by simp [h])
    | some t => decidable_of_iff (t ≤ now) (by simp [h])
  decidable_of_iff
    (p.status = Status.scheduled ∧ p.organization_id = org ∧
      ∃ t, p.scheduled_at = some t ∧ t ≤ now)
    (by unfold DuePost; exact Iff.rfl)

end Gunvald

namespace Gunvald

/-! ### Helper lemmas -/

/-- `containsSub` decides list infixhood. -/
theorem containsSub_infix_iff (hay needle : List Char) :
    containsSub hay needle = true ↔ needle <:+: hay := by
  unfold containsSub
  rw [List.any_eq_true]
  constructor
  · rintro ⟨i, _, hpre⟩
    rw [ List.isPrefixOf_iff_prefix] at hpre
    obtain ⟨t, ht⟩ := hpre
    exact ⟨hay.take i, t, by rw [List.append_assoc, ht, List.take_append_drop]⟩
  · rintro ⟨s, t, rfl⟩
    refine ⟨s.length, ?_, ?_⟩
    · simp only [List.mem_range, List.length_append]
      omega
    · rw [ List.isPrefixOf_iff_prefix, List.append_assoc, List.drop_left]
      exact ⟨t, rfl⟩

theorem isFlagged_iff (banned : List String) (text : String) :
    isFlagged banned text = true ↔
      ∃ w ∈ banned, w.data <:+: (jsToLower text).data := by
  unfold isFlagged
  rw [List.any_eq_true]
  constructor
  · rintro ⟨w, hw, h⟩
    exact ⟨w, hw, (containsSub_infix_iff _ _).1 h⟩
  · rintro ⟨w, hw, h⟩
    exact ⟨w, hw, (containsSub_infix_iff _ _).2 h⟩

/-- The boolean WHERE clause decides the spec's due-post condition. -/
theorem dueFor_iff (now : Int) (org : Nat) (p : Post) :
    dueFor now org p = true ↔ DuePost now org p := by
  unfold dueFor DuePost schedDue
  cases h : p.scheduled_at <;> simp [h, and_assoc]

theorem dueFor_eq_false_iff (now : Int) (org : Nat) (p : Post) :
    dueFor now org p = false ↔ ¬ DuePost now org p := by
  rw [← dueFor_iff now org p]
  simp

theorem decide_DuePost_eq (now : Int) (org : Nat) (p : Post) :
    decide (DuePost now org p) = dueFor now org p := by
  by_cases h : DuePost now org p
  · simp [h, (dueFor_iff now org p).2 h]
  · simp only [h, decide_False]
    exact ((dueFor_eq_false_iff now org p).2 h).symm

theorem buildPosts_length (base orgId : Nat) (now : Int) :
    ∀ (k : Nat) (gens : List GenItem),
      (buildPosts base orgId now k gens).length = gens.length
  | _, [] => rfl
  | k, _ :: gs => by
    simp [buildPosts, buildPosts_length base orgId now (k + 1) gs]

theorem buildPosts_get (base orgId : Nat) (now : Int) :
    ∀ (gens : List GenItem) (k i : Nat),
      (buildPosts base orgId now k gens).get? i =
        (gens.get? i).map (mkPost base orgId now (k + i))
  | [], _, _ => by simp [buildPosts]
  | g :: gs, k, 0 => by simp [buildPosts]
  | g :: gs, k, i + 1 => by
    have h : k + 1 + i = k + (i + 1) := by omega
    simp only [buildPosts, List.get?_cons_succ]
    rw [buildPosts_get base orgId now gs (k + 1) i, h]

theorem usageTokens_of_lookup_none (org : Nat) (month : Int)
    (tbl : List UsageRecord) (h : lookupUsage org month tbl = none) :
    usageTokens org month tbl = 0 := by
  simp [usageTokens, h]

theorem usageTokens_upsert (org : Nat) (month : Int) (tok img : Nat) :
    ∀ tbl : List UsageRecord,
      usageTokens org month (upsertUsage org month tok img tbl) =
        usageTokens org month tbl + tok
  | [] => by simp [upsertUsage, usageTokens, lookupUsage, List.find?]
  | r :: rs => by
    by_cases h : r.organization_id = org ∧ r.month = month
    · have hb : (decide (r.organization_id = org) && decide (r.month = month)) = true := by
        simp [h.1, h.2]
      simp [upsertUsage, if_pos h, usageTokens, lookupUsage, List.find?_cons, hb, h.1, h.2]
    · have hb : (decide (r.organization_id = org) && decide (r.month = month)) = false := by
        rw [← Bool.not_eq_true, Bool.and_eq_true, decide_eq_true_eq, decide_eq_true_eq]
        exact h
      simp only [upsertUsage, if_neg h, usageTokens, lookupUsage, List.find?_cons, hb]
      exact usageTokens_upsert org month tok img rs

/-- A post that has just been flipped to `published` no longer matches the
scoped WHERE clause. -/
theorem dueFor_publish_false (now : Int) (org : Nat) (p : Post) :
    dueFor now org { p with status := Status.published } = false := by
  simp [dueFor]

/-- A post that has just been flipped to `published` no longer matches the
sweep WHERE clause. -/
theorem dueAny_publish_false (now : Int) (p : Post) :
    dueAny now { p with status := Status.published } = false := by
  simp [dueAny]

/-- The fallback single post normalizes to the raw text with no hashtags. -/
theorem mapNormalize_fallback (raw : String) :
    mapNormalize (fallbackPosts raw) =
      Except.ok [{ text := raw, hashtags := [], imagePrompt := none }] := by
  by_cases h : raw = ""
  · subst h; rfl
  · simp [mapNormalize, fallbackPosts, normalizeList, normalizeItem, jsGet,
      jsTruthy, jsToStr, List.find?, h]

end Gunvald

namespace Gunvald

/-! ### Claim theorems -/

/-- C4: the moderation flag is true iff the lowercased text contains at
least one denylisted term as a contiguous substring; no word-boundary
logic.  (In particular it is false for every text when the denylist is
empty, and true for a term at either text boundary.) -/
theorem moderation_flag_iff_substring (banned : List String) (text : String) :
    (isFlagged banned text = true ↔
      ∃ w ∈ banned, w.data <:+: (jsToLower text).data) ∧
    isFlagged [] text = false := by
  refine ⟨isFlagged_iff banned text, ?_⟩
  simp [isFlagged]

/-- Witness: a denylisted term at the start of a concrete text flags it,
and a text free of denylisted terms is not flagged. -/
theorem moderation_flag_iff_substring_witness :
    (∃ w ∈ bannedWords, w.data <:+: (jsToLower "Rasismi on paha").data) ∧
    isFlagged [] "mitä tahansa" = false := by
  refine ⟨(moderation_flag_iff_substring bannedWords "Rasismi on paha").1.mp
    (by decide), (moderation_flag_iff_substring [] "mitä tahansa").2⟩

/-- C1 fails on the code: a post generated, scheduled and then published
through the exposed operations is moved back to `scheduled` by a further
schedule call from its owning organization, because the UPDATE of
`POST /api/schedule` is keyed only on id and organization, not on the
current status. -/
theorem schedule_reverts_published_counterexample :
    ((publishDueScoped 0 1
        (schedule 1 0 0
          (generateAndPersist [] 1 0
            [{ text := "x", hashtags := [], imagePrompt := none }]).2)).1.map
        Post.status = [Status.published]) ∧
    ((schedule 1 0 100
        (publishDueScoped 0 1
          (schedule 1 0 0
            (generateAndPersist [] 1 0
              [{ text := "x", hashtags := [], imagePrompt := none }]).2)).1).map
        Post.status = [Status.scheduled]) := by
  exact ⟨by decide, by decide⟩

/-- C1 (amended): a `published` post is left entirely unchanged by
`publishDue` (scoped and sweep) and by `generateAndPersist`; only the
explicit schedule operation can move it back to `scheduled`. -/
theorem published_immutable_amended (now : Int) (org : Nat)
    (store : List Post) (generated : List GenItem) :
    ∀ i p, store.get? i = some p → p.status = Status.published →
      (publishDueScoped now org store).1.get? i = some p ∧
      (publishDueSweep now store).get? i = some p ∧
      (generateAndPersist store org now generated).2.get? i = some p := by
  intro i p hp hpub
  have hdue : dueFor now org p = false := by
    rw [dueFor_eq_false_iff]
    rintro ⟨hs, -, -⟩
    rw [hpub] at hs
    cases hs
  have hany : dueAny now p = false := by
    simp [dueAny, hpub]
  refine ⟨?_, ?_, ?_⟩
  · simp only [publishDueScoped]
    rw [List.get?_map, hp]
    exact congrArg some (if_neg (by simp [hdue]))
  · simp only [publishDueSweep]
    rw [List.get?_map, hp]
    exact congrArg some (if_neg (by simp [hany]))
  · obtain ⟨hlt, -⟩ := List.get?_eq_some.mp hp
    simp only [generateAndPersist]
    rw [List.get?_append hlt]
    exact hp

/-- Witness for the amended C1: a concrete published post survives both
publish variants and a generation call untouched. -/
theorem published_immutable_amended_witness :
    (publishDueScoped 10 1
        [{ id := 1, organization_id := 1, text := "x", hashtags := [],
           scheduled_at := some 0, flagged := false,
           status := Status.published }]).1.get? 0 =
      some { id := 1, organization_id := 1, text := "x", hashtags := [],
             scheduled_at := some 0, flagged := false,
             status := Status.published } ∧
    (publishDueSweep 10
        [{ id := 1, organization_id := 1, text := "x", hashtags := [],
           scheduled_at := some 0, flagged := false,
           status := Status.published }]).get? 0 =
      some { id := 1, organization_id := 1, text := "x", hashtags := [],
             scheduled_at := some 0, flagged := false,
             status := Status.published } ∧
    (generateAndPersist
        [{ id := 1, organization_id := 1, text := "x", hashtags := [],
           scheduled_at := some 0, flagged := false,
           status := Status.published }] 1 10 []).2.get? 0 =
      some { id := 1, organization_id := 1, text := "x", hashtags := [],
             scheduled_at := some 0, flagged := false,
             status := Status.published } := by
  exact published_immutable_amended 10 1
    [{ id := 1, organization_id := 1, text := "x", hashtags := [],
       scheduled_at := some 0, flagged := false,
       status := Status.published }] [] 0 _ rfl rfl

/-- C5: `generateAndPersist` returns exactly as many posts as the generator
produced, each with status `draft` and scheduled date equal to the
creation date plus its index in days. -/
theorem generate_returns_drafts_with_staggered_dates
    (store : List Post) (orgId : Nat) (now : Int) (generated : List GenItem) :
    (generateAndPersist store orgId now generated).1.length = generated.length ∧
    ∀ i p, (generateAndPersist store orgId now generated).1.get? i = some p →
      p.status = Status.draft ∧ p.scheduled_at = some (addDays now i) := by
  constructor
  · simp [generateAndPersist, buildPosts_length]
  · intro i p hp
    simp only [generateAndPersist] at hp
    rw [buildPosts_get] at hp
    cases hg : generated.get? i with
    | none => rw [hg] at hp; cases hp
    | some g =>
      rw [hg] at hp
      have hp' : mkPost store.length orgId now (0 + i) g = p := by
        simpa using hp
      subst hp'
      exact ⟨rfl, by simp [mkPost]⟩

/-- Witness: two generated items yield two drafts, the second scheduled a
day after the creation date. -/
theorem generate_returns_drafts_witness :
    (generateAndPersist [] 1 0
      [{ text := "a", hashtags := [], imagePrompt := none },
       { text := "b", hashtags := [], imagePrompt := none }]).1.length = 2 ∧
    (mkPost 0 1 0 1 { text := "b", hashtags := [], imagePrompt := none }).status
        = Status.draft ∧
    (mkPost 0 1 0 1 { text := "b", hashtags := [], imagePrompt := none }).scheduled_at
        = some (addDays 0 1) := by
  have h := generate_returns_drafts_with_staggered_dates [] 1 0
    [{ text := "a", hashtags := [], imagePrompt := none },
     { text := "b", hashtags := [], imagePrompt := none }]
  exact ⟨h.1, h.2 1 _ (by decide)⟩

/-- C6: the scoped publish transitions exactly the caller's scheduled posts
whose scheduled timestamp is at or before now (inclusive boundary), leaves
every other post unchanged, and returns the number of posts it
published. -/
theorem publishDue_publishes_exactly_due (now : Int) (org : Nat)
    (store : List Post) :
    (publishDueScoped now org store).1.length = store.length ∧
    (∀ i p, store.get? i = some p →
      (DuePost now org p →
        (publishDueScoped now org store).1.get? i =
          some { p with status := Status.published }) ∧
      (¬ DuePost now org p →
        (publishDueScoped now org store).1.get? i = some p)) ∧
    (publishDueScoped now org store).2 =
      (store.filter (fun p => decide (DuePost now org p))).length := by
  refine ⟨by simp [publishDueScoped], ?_, ?_⟩
  · intro i p hp
    constructor
    · intro hdue
      simp only [publishDueScoped]
      rw [List.get?_map, hp]
      exact congrArg some (if_pos ((dueFor_iff now org p).2 hdue))
    · intro hdue
      have hfalse := (dueFor_eq_false_iff now org p).2 hdue
      simp only [publishDueScoped]
      rw [List.get?_map, hp]
      exact congrArg some (if_neg (by simp [hfalse]))
  · simp only [publishDueScoped]
    congr 1
    exact List.filter_congr (fun p _ => (decide_DuePost_eq now org p).symm)

/-- Witness for C6: at `now = 5`, a post scheduled exactly at 5 is
published (inclusive boundary), a post scheduled at 6 is left `scheduled`,
and the reported count is 1. -/
theorem publishDue_publishes_exactly_due_witness :
    (publishDueScoped 5 1
      [{ id := 1, organization_id := 1, text := "", hashtags := [],
         scheduled_at := some 5, flagged := false, status := Status.scheduled },
       { id := 2, organization_id := 1, text := "", hashtags := [],
         scheduled_at := some 6, flagged := false,
         status := Status.scheduled }]).1.get? 0 =
      some { id := 1, organization_id := 1, text := "", hashtags := [],
             scheduled_at := some 5, flagged := false,
             status := Status.published } ∧
    (publishDueScoped 5 1
      [{ id := 1, organization_id := 1, text := "", hashtags := [],
         scheduled_at := some 5, flagged := false, status := Status.scheduled },
       { id := 2, organization_id := 1, text := "", hashtags := [],
         scheduled_at := some 6, flagged := false,
         status := Status.scheduled }]).1.get? 1 =
      some { id := 2, organization_id := 1, text := "", hashtags := [],
             scheduled_at := some 6, flagged := false,
             status := Status.scheduled } ∧
    (publishDueScoped 5 1
      [{ id := 1, organization_id := 1, text := "", hashtags := [],
         scheduled_at := some 5, flagged := false, status := Status.scheduled },
       { id := 2, organization_id := 1, text := "", hashtags := [],
         scheduled_at := some 6, flagged := false,
         status := Status.scheduled }]).2 = 1 := by
  have h := publishDue_publishes_exactly_due 5 1
    [{ id := 1, organization_id := 1, text := "", hashtags := [],
       scheduled_at := some 5, flagged := false, status := Status.scheduled },
     { id := 2, organization_id := 1, text := "", hashtags := [],
       scheduled_at := some 6, flagged := false, status := Status.scheduled }]
  refine ⟨(h.2.1 0 _ rfl).1 (by decide), (h.2.1 1 _ rfl).2 (by decide), ?_⟩
  rw [h.2.2]
  decide

/-- C7: publishing due posts is idempotent: an immediate second run (same
clock reading) changes nothing and, in the scoped variant, reports a count
of zero; the global sweep is likewise idempotent. -/
theorem publishDue_idempotent (now : Int) (org : Nat) (store : List Post) :
    publishDueScoped now org (publishDueScoped now org store).1 =
      ((publishDueScoped now org store).1, 0) ∧
    publishDueSweep now (publishDueSweep now store) =
      publishDueSweep now store := by
  constructor
  · have hall : ∀ p ∈ (publishDueScoped now org store).1,
        dueFor now org p = false := by
      intro q hq
      simp only [publishDueScoped, List.mem_map] at hq
      obtain ⟨p, -, rfl⟩ := hq
      by_cases h : dueFor now org p = true
      · rw [if_pos h]
        exact dueFor_publish_false now org p
      · rw [if_neg h]
        exact Bool.eq_false_iff.mpr h
    have : ∀ l : List Post, (∀ p ∈ l, dueFor now org p = false) →
        publishDueScoped now org l = (l, 0) := by
      intro l
      induction l with
      | nil => intro; rfl
      | cons p ps ih =>
        intro hl
        have hp := hl p (List.mem_cons_self p ps)
        have hps := ih (fun q hq => hl q (List.mem_cons_of_mem p hq))
        simp only [publishDueScoped, Prod.mk.injEq] at hps ⊢
        simp [hp, hps.1, hps.2]
    exact this _ hall
  · have hall : ∀ p ∈ publishDueSweep now store, dueAny now p = false := by
      intro q hq
      simp only [publishDueSweep, List.mem_map] at hq
      obtain ⟨p, -, rfl⟩ := hq
      by_cases h : dueAny now p = true
      · rw [if_pos h]
        exact dueAny_publish_false now p
      · rw [if_neg h]
        exact Bool.eq_false_iff.mpr h
    have : ∀ l : List Post, (∀ p ∈ l, dueAny now p = false) →
        publishDueSweep now l = l := by
      intro l
      induction l with
      | nil => intro; rfl
      | cons p ps ih =>
        intro hl
        have hp := hl p (List.mem_cons_self p ps)
        have hps := ih (fun q hq => hl q (List.mem_cons_of_mem p hq))
        simp only [publishDueSweep] at hps ⊢
        simp [hp, hps]
    exact this _ hall

/-- C9: the schedule operation and the scoped publish leave every post of a
different organization entirely unchanged. -/
theorem cross_org_frame (callerOrg postId : Nat) (publishAt now : Int)
    (store : List Post) :
    ∀ i p, store.get? i = some p → p.organization_id ≠ callerOrg →
      (schedule callerOrg postId publishAt store).get? i = some p ∧
      (publishDueScoped now callerOrg store).1.get? i = some p := by
  intro i p hp hne
  constructor
  · simp only [schedule]
    rw [List.get?_map, hp]
    exact congrArg some (if_neg (by rintro ⟨-, h2⟩; exact hne h2))
  · simp only [publishDueScoped]
    rw [List.get?_map, hp]
    have hdue : dueFor now callerOrg p = false := by
      rw [dueFor_eq_false_iff]
      rintro ⟨-, h2, -⟩
      exact hne h2
    exact congrArg some (if_neg (by simp [hdue]))

/-- Witness for C9: a post owned by organization 2 is untouched by a
schedule call and a scoped publish issued for organization 1, even though
it would otherwise be due. -/
theorem cross_org_frame_witness :
    (schedule 1 1 50
      [{ id := 1, organization_id := 2, text := "x", hashtags := [],
         scheduled_at := some 0, flagged := false,
         status := Status.scheduled }]).get? 0 =
      some { id := 1, organization_id := 2, text := "x", hashtags := [],
             scheduled_at := some 0, flagged := false,
             status := Status.scheduled } ∧
    (publishDueScoped 5 1
      [{ id := 1, organization_id := 2, text := "x", hashtags := [],
         scheduled_at := some 0, flagged := false,
         status := Status.scheduled }]).1.get? 0 =
      some { id := 1, organization_id := 2, text := "x", hashtags := [],
             scheduled_at := some 0, flagged := false,
             status := Status.scheduled } := by
  exact cross_org_frame 1 1 50 5
    [{ id := 1, organization_id := 2, text := "x", hashtags := [],
       scheduled_at := some 0, flagged := false,
       status := Status.scheduled }] 0 _ rfl (by decide)

/-- C2: the usage upsert is additive — starting from a month with no
record, two generation calls leave a tokens-used counter equal to the sum
of each call's total generated-text character length; and every call
leaves the counter no smaller than before (never reset or overwritten). -/
theorem usage_additive_upsert (org : Nat) (month : Int)
    (c1 i1 ca1 c2 i2 ca2 : String) (n1 n2 : Nat) (tbl : List UsageRecord) :
    (lookupUsage org month tbl = none →
      usageTokens org month
        (generateCallUsage org month c2 i2 ca2 n2
          (generateCallUsage org month c1 i1 ca1 n1 tbl)) =
        stubTokens c1 i1 ca1 n1 + stubTokens c2 i2 ca2 n2) ∧
    ∀ tbl' : List UsageRecord,
      usageTokens org month tbl' ≤
        usageTokens org month (generateCallUsage org month c1 i1 ca1 n1 tbl') := by
  constructor
  · intro h
    unfold generateCallUsage
    rw [usageTokens_upsert, usageTokens_upsert,
      usageTokens_of_lookup_none org month tbl h]
    omega
  · intro tbl'
    unfold generateCallUsage
    rw [usageTokens_upsert]
    exact Nat.le_add_right _ _

/-- Witness: two concrete calls in the same month for organization 1,
starting from an empty usage table. -/
theorem usage_additive_upsert_witness :
    usageTokens 1 0 (generateCallUsage 1 0 "Beta" "" "" 1
        (generateCallUsage 1 0 "Acme" "" "" 2 [])) =
      stubTokens "Acme" "" "" 2 + stubTokens "Beta" "" "" 1 ∧
    usageTokens 1 0 [] ≤
      usageTokens 1 0 (generateCallUsage 1 0 "Acme" "" "" 2 []) := by
  exact ⟨(usage_additive_upsert 1 0 "Acme" "" "" "Beta" "" "" 2 1 []).1 rfl,
    (usage_additive_upsert 1 0 "Acme" "" "" "Beta" "" "" 2 1 []).2 []⟩

/-- C3 fails on the code: `"42"` is valid JSON but not the expected array,
so the parse succeeds, `posts.map` is called on a number, and the resulting
TypeError escapes `generatePlan` instead of degrading to a single synthetic
item.  (`parseAsNum42` agrees with `JSON.parse` at the input `"42"`.) -/
theorem generatePlan_nonarray_raises_counterexample :
    generatePlan (some "sk") 200 "" (some "42") parseAsNum42 =
      Except.error GenErr.uncaughtTypeError ∧
    generatePlan (some "sk") 200 "" (some "42") parseAsNum42 ≠
      Except.ok [{ text := "42", hashtags := [], imagePrompt := none }] := by
  exact ⟨by decide, by decide⟩

/-- C3 (amended): whenever `JSON.parse` throws on the fence-stripped text,
`generatePlan` returns exactly one item whose text is the fence-stripped
raw string and whose hashtags are empty.  (Raw text that parses as JSON
but not as an array of objects instead raises a TypeError.) -/
theorem generatePlan_degrade_on_unparseable (k : String) (status : Nat)
    (errBody : String) (content : Option String)
    (parse : String → Option Json) (hok : respOk status = true)
    (hfail : parse (stripFences ((content.map jsTrim).getD "")) = none) :
    generatePlan (some k) status errBody content parse =
      Except.ok [{ text := stripFences ((content.map jsTrim).getD ""),
                   hashtags := [], imagePrompt := none }] := by
  simp [generatePlan, hok, hfail, mapNormalize_fallback]

/-- Witness: fenced malformed output degrades to one post carrying the
fence-stripped raw text. -/
theorem generatePlan_degrade_on_unparseable_witness :
    generatePlan (some "sk") 200 "" (some "```json\nnot json```") parseFailAll =
      Except.ok [{ text := "not json", hashtags := [], imagePrompt := none }] := by
  have h := generatePlan_degrade_on_unparseable "sk" 200 ""
    (some "```json\nnot json```") parseFailAll (by decide) rfl
  rw [h]
  decide

/-- C8: `generatePlan` fails with the configuration error when no
credential is configured and with the upstream error (carrying the
upstream status) on a non-2xx response, aborting generation in both cases;
and each of the five error kinds surfaces to the immediate caller under
its own condition, the five being pairwise distinct. -/
theorem generate_error_taxonomy (auth orgId : Option Nat)
    (profile : Option Profile) (apiKey : Option String) (status : Nat)
    (errBody : String) (content : Option String)
    (parse : String → Option Json) (persistOk : Bool) (store : List Post)
    (now : Int) :
    (apiKey = none → generatePlan apiKey status errBody content parse =
      Except.error GenErr.configurationError) ∧
    (apiKey ≠ none → respOk status = false →
      generatePlan apiKey status errBody content parse =
        Except.error (GenErr.upstreamError status errBody)) ∧
    (auth = none →
      handleGenerate auth orgId profile apiKey status errBody content parse
        persistOk store now = Except.error PipelineError.unauthenticated) ∧
    (auth ≠ none → orgId ≠ none → profile = none →
      handleGenerate auth orgId profile apiKey status errBody content parse
        persistOk store now = Except.error PipelineError.profileNotFound) ∧
    (auth ≠ none → orgId ≠ none → profile ≠ none → apiKey = none →
      handleGenerate auth orgId profile apiKey status errBody content parse
        persistOk store now = Except.error PipelineError.configurationError) ∧
    (auth ≠ none → orgId ≠ none → profile ≠ none → apiKey ≠ none →
      respOk status = false →
      handleGenerate auth orgId profile apiKey status errBody content parse
        persistOk store now =
        Except.error (PipelineError.upstreamError status errBody)) ∧
    (auth ≠ none → orgId ≠ none → profile ≠ none →
      (∃ items, generatePlan apiKey status errBody content parse =
        Except.ok items) →
      persistOk = false →
      handleGenerate auth orgId profile apiKey status errBody content parse
        persistOk store now = Except.error PipelineError.persistenceError) ∧
    List.Pairwise (fun a b => a ≠ b)
      [PipelineError.unauthenticated, PipelineError.profileNotFound,
       PipelineError.configurationError,
       PipelineError.upstreamError status errBody,
       PipelineError.persistenceError] := by
  refine ⟨?_, ?_, ?_, ?_, ?_, ?_, ?_, ?_⟩
  · intro h
    subst h
    rfl
  · intro h1 h2
    cases apiKey with
    | none => exact absurd rfl h1
    | some k => simp [generatePlan, h2]
  · intro h
    subst h
    rfl
  · intro h1 h2 h3
    cases auth with
    | none => exact absurd rfl h1
    | some u =>
      cases orgId with
      | none => exact absurd rfl h2
      | some o =>
        subst h3
        rfl
  · intro h1 h2 h3 h4
    cases auth with
    | none => exact absurd rfl h1
    | some u =>
      cases orgId with
      | none => exact absurd rfl h2
      | some o =>
        cases profile with
        | none => exact absurd rfl h3
        | some prof =>
          subst h4
          rfl
  · intro h1 h2 h3 h4 h5
    cases auth with
    | none => exact absurd rfl h1
    | some u =>
      cases orgId with
      | none => exact absurd rfl h2
      | some o =>
        cases profile with
        | none => exact absurd rfl h3
        | some prof =>
          cases apiKey with
          | none => exact absurd rfl h4
          | some k => simp [handleGenerate, generatePlan, h5]
  · intro h1 h2 h3 h4 h5
    obtain ⟨items, hgen⟩ := h4
    cases auth with
    | none => exact absurd rfl h1
    | some u =>
      cases orgId with
      | none => exact absurd rfl h2
      | some o =>
        cases profile with
        | none => exact absurd rfl h3
        | some prof =>
          subst h5
          simp [handleGenerate, hgen]
  · simp

/-- Witness: each of the five error kinds is produced by a concrete
request exhibiting its condition. -/
theorem generate_error_taxonomy_witness :
    generatePlan none 200 "" none parseFailAll =
      Except.error GenErr.configurationError ∧
    generatePlan (some "sk") 500 "boom" none parseFailAll =
      Except.error (GenErr.upstreamError 500 "boom") ∧
    handleGenerate none (some 1) (some {}) (some "sk") 200 "" none
      parseFailAll true [] 0 = Except.error PipelineError.unauthenticated ∧
    handleGenerate (some 1) (some 1) none (some "sk") 200 "" none
      parseFailAll true [] 0 = Except.error PipelineError.profileNotFound ∧
    handleGenerate (some 1) (some 1) (some {}) none 200 "" none
      parseFailAll true [] 0 =
      Except.error PipelineError.configurationError ∧
    handleGenerate (some 1) (some 1) (some {}) (some "sk") 500 "boom" none
      parseFailAll true [] 0 =
      Except.error (PipelineError.upstreamError 500 "boom") ∧
    handleGenerate (some 1) (some 1) (some {}) (some "sk") 200 "" none
      parseFailAll false [] 0 =
      Except.error PipelineError.persistenceError := by
  refine ⟨(generate_error_taxonomy none none none none 200 "" none
      parseFailAll true [] 0).1 rfl,
    (generate_error_taxonomy none none none (some "sk") 500 "boom" none
      parseFailAll true [] 0).2.1 (by simp) (by decide),
    (generate_error_taxonomy none (some 1) (some {}) (some "sk") 200 "" none
      parseFailAll true [] 0).2.2.1 rfl,
    (generate_error_taxonomy (some 1) (some 1) none (some "sk") 200 "" none
      parseFailAll true [] 0).2.2.2.1 (by simp) (by simp) rfl,
    (generate_error_taxonomy (some 1) (some 1) (some {}) none 200 "" none
      parseFailAll true [] 0).2.2.2.2.1 (by simp) (by simp) (by simp) rfl,
    (generate_error_taxonomy (some 1) (some 1) (some {}) (some "sk") 500
      "boom" none parseFailAll true [] 0).2.2.2.2.2.1 (by simp) (by simp)
      (by simp) (by simp) (by decide),
    (generate_error_taxonomy (some 1) (some 1) (some {}) (some "sk") 200 ""
      none parseFailAll false [] 0).2.2.2.2.2.2.1 (by simp) (by simp)
      (by simp) ⟨[{ text := "", hashtags := [], imagePrompt := none }],
        by decide⟩ rfl⟩

/-- C10: the moderation flag of a constructed post is computed exclusively
from the generated body text: equal texts give equal flags, and a
denylisted term appearing only in the hashtags or the image prompt never
flags a post whose text is clean. -/
theorem flag_depends_only_on_text (base orgId : Nat) (now : Int)
    (idx : Nat) (g g2 : GenItem) :
    (g.text = g2.text →
      (mkPost base orgId now idx g).flagged =
        (mkPost base orgId now idx g2).flagged) ∧
    (isFlagged bannedWords g.text = false →
      (isFlagged bannedWords (String.join g.hashtags) = true ∨
        isFlagged bannedWords (g.imagePrompt.getD "") = true) →
      (mkPost base orgId now idx g).flagged = false) := by
  constructor
  · intro h
    simp [mkPost, h]
  · intro h _
    simp [mkPost, h]

/-- Witness: an item whose hashtags contain a denylisted term but whose
text is clean is not flagged. -/
theorem flag_depends_only_on_text_witness :
    isFlagged bannedWords "hei maailma" = false ∧
    isFlagged bannedWords (String.join ["#väkivalta"]) = true ∧
    (mkPost 0 1 0 0 ⟨"hei maailma", ["#väkivalta"], none⟩).flagged = false := by
  refine ⟨by decide, by decide, ?_⟩
  exact (flag_depends_only_on_text 0 1 0 0
    { text := "hei maailma", hashtags := ["#väkivalta"], imagePrompt := none }
    { text := "hei maailma", hashtags := [], imagePrompt := none }).2
    (by decide) (Or.inl (by decide))

end Gunvald
